import Mathlib

/-
Shallow embedding of `kubernetes/resource_kubernetes_job_v1.go` from the
terraform-provider-kubernetes repository.

Modelling conventions:
- Go `error` values that matter to the control flow are the typed inductive
  `Err` below: a Kubernetes StatusError with reason NotFound, a StatusError
  with any other reason, or a non-status error.  Both Go patterns used in the
  source, `apierrors.IsNotFound(err)` and
  `err.(*errors.StatusError) ok && errors.IsNotFound(statusErr)`, reduce to
  the same predicate on this type.
- The remote API is passed in as a function argument (the value of a
  `Get` call) or as an explicit store state where the claim needs the store
  to evolve (delete).
- `meta.(KubeClientsets).MainClientset()` is connection plumbing and is
  assumed to succeed; its failure branch only propagates an error verbatim.
- The diffing side effects `d.ForceNew(...)` and `d.Clear(...)` are recorded
  in an explicit `DiffState`.
-/

namespace TFK8sJob

/-- Typed model of the Go errors the source distinguishes. -/
inductive Err where
  | statusNotFound
  | statusOther (msg : String)
  | nonStatus (msg : String)
deriving DecidableEq, Repr

/-- Both `apierrors.IsNotFound(err)` and the
`err.(*errors.StatusError)` + `errors.IsNotFound` pattern of the source hold
exactly for a StatusError whose reason is NotFound. -/
def Err.isNotFound : Err → Bool
  | .statusNotFound => true
  | _ => false

/-- Condition types of a batch Job status; `JobComplete` and `JobFailed` are
the two the source inspects. -/
inductive ConditionType where
  | complete
  | failed
  | otherCond (s : String)
deriving DecidableEq, Repr

/-- Condition status flag, `corev1.ConditionTrue` etc. -/
inductive ConditionStatus where
  | condTrue
  | condFalse
  | condUnknown
deriving DecidableEq, Repr

/-- One entry of `job.Status.Conditions`. -/
structure JobCondition where
  type : ConditionType
  status : ConditionStatus
deriving DecidableEq, Repr

/-- The part of a fetched Job object the source reads: its condition list. -/
structure Job where
  conditions : List JobCondition
deriving DecidableEq, Repr

/-- Value of a run of decimal digits; fails on any non-digit character. -/
def decDigits (cs : List Char) : Option Nat :=
  cs.foldl
    (fun acc c =>
      match acc with
      | none => none
      | some m => if c.isDigit then some (m * 10 + (c.toNat - 48)) else none)
    (some 0)

/-- Model of Go `strconv.Atoi`: optional sign followed by one or more decimal
digits; anything else is an error (`none`).  Overflow of the machine int is
not modelled: the TTL strings in scope are small. -/
def atoi (s : String) : Option Int :=
  match s.toList with
  | [] => none
  | c :: cs =>
    if c = '-' then
      match cs with
      | [] => none
      | _ => (decDigits cs).map (fun m => -(m : Int))
    else if c = '+' then
      match cs with
      | [] => none
      | _ => (decDigits cs).map (fun m => (m : Int))
    else
      (decDigits (c :: cs)).map (fun m => (m : Int))

/-- The `strconv.Atoi` + `if err != nil { v = 0 }` idiom of the source:
absent or unparseable strings normalize to 0. -/
def ttlOrZero (s : String) : Int :=
  (atoi s).getD 0

/-- Split a character list at every comma. -/
def splitCommaAux : List Char → List Char → List (List Char)
  | [], acc => [acc.reverse]
  | c :: cs, acc =>
    if c = ',' then acc.reverse :: splitCommaAux cs []
    else splitCommaAux cs (c :: acc)

/-- Modelled from the spec: `idParts` is defined outside this file (shared
provider plumbing, not under src/).  The spec describes the identifier codec:
a stored identifier has the form "<namespace>,<name>" and decoding fails if
the string does not split into exactly two non-empty parts. -/
def idParts (id : String) : Except Err (String × String) :=
  match splitCommaAux id.toList [] with
  | [ns, n] =>
    if ns = [] ∨ n = [] then
      .error (.nonStatus ("Unexpected ID format: " ++ id))
    else
      .ok (String.mk ns, String.mk n)
  | _ => .error (.nonStatus ("Unexpected ID format: " ++ id))

/-- Accumulated diffing side effects: fields marked ForceNew and sub-trees
cleared from the computed diff, each in call order. -/
structure DiffState where
  forcedNew : List String
  cleared : List String
deriving DecidableEq, Repr

/-- The state of a diff on which nothing has been forced or cleared. -/
def DiffState.empty : DiffState := ⟨[], []⟩

/-- Embedding of `resourceKubernetesJobV1CustomizeDiff`.  Inputs: the
recorded identifier `d.Id()`, the old and new raw values of
`spec.0.ttl_seconds_after_finished` (a missing or non-string raw value
yields the empty string, as the Go type assertion does), and the remote
`Get` as a function of namespace and name.  Output: the diff side effects
performed and the returned error. -/
def resourceKubernetesJobV1CustomizeDiff (id : String)
    (oldTTLRaw newTTLRaw : Option String)
    (getJob : String → String → Except Err Job) :
    DiffState × Option Err :=
  if id = "" then
    (DiffState.empty, none)
  else
    let oldTTLStr := oldTTLRaw.getD ""
    let newTTLStr := newTTLRaw.getD ""
    let oldTTLInt := ttlOrZero oldTTLStr
    let newTTLInt := ttlOrZero newTTLStr
    match idParts id with
    | .error e => (DiffState.empty, some e)
    | .ok (ns, n) =>
      match getJob ns n with
      | .error e =>
        if e.isNotFound then
          if 0 ≤ oldTTLInt then
            if oldTTLInt ≠ newTTLInt then
              (⟨["spec.0.ttl_seconds_after_finished"], []⟩, none)
            else
              (⟨[], ["spec", "metadata"]⟩, none)
          else
            (DiffState.empty, none)
        else
          (DiffState.empty, some e)
      | .ok _ =>
        if oldTTLInt ≠ newTTLInt then
          (⟨["spec.0.ttl_seconds_after_finished"], []⟩, none)
        else
          (DiffState.empty, none)

/-- Remote calls an operation makes, for tracing which API requests were
issued. -/
inductive RemoteCall where
  | getCall (ns n : String)
deriving DecidableEq, Repr

/-- Outcome of `resourceKubernetesJobV1Update` up to its existence check.
`proceedsToPatch` is the branch in which the Job was found and the function
goes on to build and send a JSON patch: that continuation calls only shared
helpers defined outside this file (`patchMetadata`, `patchJobV1Spec`,
flatten/expand) and plays no role in the claims about the not-found
branch. -/
inductive UpdateResult where
  | noopSuccess
  | deletedError
  | retrieveError (e : Err)
  | fromErr (e : Err)
  | proceedsToPatch
deriving DecidableEq, Repr

/-- Embedding of the existence-check prefix of
`resourceKubernetesJobV1Update`.  Inputs: the recorded identifier, the raw
value of `spec.0.ttl_seconds_after_finished` from the configuration store
(absent or non-string yields the empty string), and the remote `Get`.
Output: the result together with the list of remote calls issued. -/
def resourceKubernetesJobV1Update (id : String) (ttlAttr : Option String)
    (getJob : String → String → Except Err Job) :
    UpdateResult × List RemoteCall :=
  match idParts id with
  | .error e => (.fromErr e, [])
  | .ok (ns, n) =>
    match getJob ns n with
    | .error e =>
      if e.isNotFound then
        let ttlStr := ttlAttr.getD ""
        let ttlInt := ttlOrZero ttlStr
        if 0 ≤ ttlInt then
          (.noopSuccess, [.getCall ns n])
        else
          (.deletedError, [.getCall ns n])
      else
        (.retrieveError e, [.getCall ns n])
    | .ok _ => (.proceedsToPatch, [.getCall ns n])

/-- Embedding of `resourceKubernetesJobV1Exists`: Get the Job; a NotFound
StatusError maps to `(false, none)`, any other Get error falls through to
`return true, err`, and success is `(true, none)`. -/
def resourceKubernetesJobV1Exists (id : String)
    (getJob : String → String → Except Err Job) : Bool × Option Err :=
  match idParts id with
  | .error e => (false, some e)
  | .ok (ns, n) =>
    match getJob ns n with
    | .error e =>
      if e.isNotFound then (false, none)
      else (true, some e)
    | .ok _ => (true, none)

/-- Modelled from the spec: the remote object store collaborator (spec
section 6), a namespaced map of Jobs.  Get returns the object or a typed
not-found error; delete removes the object when present and reports
not-found when absent. -/
structure RemoteJobStore where
  jobs : List (String × String × Job)
deriving DecidableEq, Repr

/-- Look up a Job by namespace and name. -/
def RemoteJobStore.lookup (s : RemoteJobStore) (ns n : String) : Option Job :=
  (s.jobs.find? (fun e => e.1 == ns && e.2.1 == n)).map (fun e => e.2.2)

/-- The store's Get endpoint. -/
def RemoteJobStore.getJob (s : RemoteJobStore) (ns n : String) :
    Except Err Job :=
  match s.lookup ns n with
  | some j => .ok j
  | none => .error .statusNotFound

/-- The store's Delete endpoint: error (if any) and the updated store. -/
def RemoteJobStore.deleteJob (s : RemoteJobStore) (ns n : String) :
    Option Err × RemoteJobStore :=
  match s.lookup ns n with
  | some _ => (none, ⟨s.jobs.filter (fun e => !(e.1 == ns && e.2.1 == n))⟩)
  | none => (some .statusNotFound, s)

/-- Result of the delete operation. -/
inductive DeleteResult where
  | success
  | apiError (e : Err)
  | fromErr (e : Err)
deriving DecidableEq, Repr

/-- The retry loop inside `resourceKubernetesJobV1Delete` that polls Get
until the Job is confirmed absent.  `fuel` bounds the number of attempts
(the delete timeout); when it runs out the pending retryable error
surfaces, as `retry.RetryContext` does on deadline. -/
def waitJobDeleted : Nat → RemoteJobStore → String → String → Option Err
  | 0, _, _, n => some (.nonStatus ("Job " ++ n ++ " still exists"))
  | fuel + 1, s, ns, n =>
    match s.getJob ns n with
    | .error e => if e.isNotFound then none else some e
    | .ok _ => waitJobDeleted fuel s ns n

/-- Post-state of a delete invocation: its result, the store it leaves
behind, and the recorded identifier after the call (`d.SetId("")` clears
it on the confirmed-deleted path; the early NotFound return leaves it). -/
structure DeleteOutcome where
  result : DeleteResult
  store : RemoteJobStore
  idAfter : String
deriving DecidableEq, Repr

/-- Embedding of `resourceKubernetesJobV1Delete`: issue Delete; a NotFound
StatusError means already deleted (success, early return); any other error
is fatal; otherwise poll until the Job is gone, then clear the recorded
identifier. -/
def resourceKubernetesJobV1Delete (fuel : Nat) (id : String)
    (s : RemoteJobStore) : DeleteOutcome :=
  match idParts id with
  | .error e => ⟨.fromErr e, s, id⟩
  | .ok (ns, n) =>
    match s.deleteJob ns n with
    | (some e, s2) =>
      if e.isNotFound then ⟨.success, s2, id⟩
      else ⟨.apiError e, s2, id⟩
    | (none, s2) =>
      match waitJobDeleted fuel s2 ns n with
      | some e => ⟨.fromErr e, s2, id⟩
      | none => ⟨.success, s2, ""⟩

/-- The two outcomes of one attempt of a retry function, as in the
terraform-plugin-sdk retry helper: a retryable error asks for another
attempt, a non-retryable error stops the loop with that error; `none`
stops the loop successfully. -/
inductive RetryError where
  | retryable (e : Err)
  | nonRetryable (e : Err)
deriving DecidableEq, Repr

/-- The condition scan of `retryUntilJobV1IsFinished`: walk the condition
list in order; for each condition whose status is true, type Complete ends
the poll successfully, type Failed ends it with a non-retryable error, any
other type continues the scan; with no match the attempt is retryable. -/
def scanJobConditions (ns n : String) :
    List JobCondition → Option RetryError
  | [] =>
    some (.retryable (.nonStatus
      ("job: " ++ ns ++ "/" ++ n ++ " is not in complete state")))
  | c :: rest =>
    if c.status = ConditionStatus.condTrue then
      match c.type with
      | .complete => none
      | .failed =>
        some (.nonRetryable (.nonStatus
          ("job: " ++ ns ++ "/" ++ n ++ " is in failed state")))
      | .otherCond _ => scanJobConditions ns n rest
    else
      scanJobConditions ns n rest

/-- Embedding of one attempt of `retryUntilJobV1IsFinished`, as a function
of the fetch result of that attempt. -/
def retryUntilJobV1IsFinished (ns n : String)
    (fetch : Except Err Job) : Option RetryError :=
  match fetch with
  | .error e =>
    if e.isNotFound then none
    else some (.nonRetryable e)
  | .ok job => scanJobConditions ns n job.conditions

/-- Specification-level characterization of the condition scan, written
from the claim: the type of the first condition in list order whose status
is true and whose type is Complete or Failed, if any. -/
def firstTrueTerminal : List JobCondition → Option ConditionType
  | [] => none
  | c :: rest =>
    if c.status = ConditionStatus.condTrue ∧
        (c.type = ConditionType.complete ∨ c.type = ConditionType.failed) then
      some c.type
    else
      firstTrueTerminal rest

/-- A successfully decoded identifier is not the empty string. -/
theorem idParts_ok_ne_empty {id : String} {p : String × String}
    (h : idParts id = .ok p) : id ≠ "" := by
  intro h0
  subst h0
  rw [show idParts "" =
        Except.error (Err.nonStatus ("Unexpected ID format: " ++ "")) from by
      rfl] at h
  exact Except.noConfusion h

/-- The not-found predicate holds exactly for `statusNotFound`. -/
theorem Err.isNotFound_iff {e : Err} :
    e.isNotFound = true ↔ e = .statusNotFound := by
  cases e <;> simp [Err.isNotFound]

/-- Unfolding of the diff rule on the branch where the identifier is
recorded and the remote lookup reports not found. -/
theorem customizeDiff_notFound_eq (id : String) (oldRaw newRaw : Option String)
    (g : String → String → Except Err Job) (ns n : String)
    (hid : idParts id = .ok (ns, n))
    (hnf : g ns n = .error .statusNotFound) :
    resourceKubernetesJobV1CustomizeDiff id oldRaw newRaw g =
      (if 0 ≤ ttlOrZero (oldRaw.getD "") then
        if ttlOrZero (oldRaw.getD "") ≠ ttlOrZero (newRaw.getD "") then
          (⟨["spec.0.ttl_seconds_after_finished"], []⟩, none)
        else
          (⟨[], ["spec", "metadata"]⟩, none)
      else
        (DiffState.empty, none)) := by
  simp only [resourceKubernetesJobV1CustomizeDiff,
    if_neg (idParts_ok_ne_empty hid), hid, hnf, Err.isNotFound, if_true]

/-- Unfolding of the diff rule on the branch where the identifier is
recorded and the remote lookup succeeds. -/
theorem customizeDiff_found_eq (id : String) (oldRaw newRaw : Option String)
    (g : String → String → Except Err Job) (ns n : String) (j : Job)
    (hid : idParts id = .ok (ns, n))
    (hok : g ns n = .ok j) :
    resourceKubernetesJobV1CustomizeDiff id oldRaw newRaw g =
      (if ttlOrZero (oldRaw.getD "") ≠ ttlOrZero (newRaw.getD "") then
        (⟨["spec.0.ttl_seconds_after_finished"], []⟩, none)
      else
        (DiffState.empty, none)) := by
  simp only [resourceKubernetesJobV1CustomizeDiff,
    if_neg (idParts_ok_ne_empty hid), hid, hok]

/-- C1 counterexample: with the identifier "prod,batch-job-7" recorded, old
TTL "-1" and new TTL "0" (parsed values -1 and 0, which differ) and the
remote lookup reporting not found, the diff rule performs no ForceNew at
all, contrary to the claim that every differing pair forces recreation. -/
theorem cd_missing_changed_negative_cex :
    ttlOrZero ((some "-1").getD "") ≠ ttlOrZero ((some "0").getD "") ∧
    idParts "prod,batch-job-7" = .ok ("prod", "batch-job-7") ∧
    resourceKubernetesJobV1CustomizeDiff "prod,batch-job-7"
      (some "-1") (some "0") (fun _ _ => .error .statusNotFound) =
      (DiffState.empty, none) := by
  refine ⟨by decide, by rfl, by rfl⟩

/-- C1 (amended): when the resource has a recorded identifier, the remote
lookup of the job fails with not found, the old TTL parses to a
non-negative integer, and the parsed old and new TTL values differ, the
diff rule marks spec.0.ttl_seconds_after_finished as forcing recreation
and returns no error. -/
theorem cd_missing_changed_forceNew (id : String)
    (oldRaw newRaw : Option String)
    (g : String → String → Except Err Job) (ns n : String)
    (hid : idParts id = .ok (ns, n))
    (hnf : g ns n = .error .statusNotFound)
    (h0 : 0 ≤ ttlOrZero (oldRaw.getD ""))
    (hne : ttlOrZero (oldRaw.getD "") ≠ ttlOrZero (newRaw.getD "")) :
    resourceKubernetesJobV1CustomizeDiff id oldRaw newRaw g =
      (⟨["spec.0.ttl_seconds_after_finished"], []⟩, none) := by
  rw [customizeDiff_notFound_eq id oldRaw newRaw g ns n hid hnf,
    if_pos h0, if_pos hne]

/-- C1 witness: the amended theorem applied at a concrete input. -/
theorem cd_missing_changed_forceNew_wit :
    resourceKubernetesJobV1CustomizeDiff "prod,batch-job-7"
      (some "10") (some "20") (fun _ _ => .error .statusNotFound) =
      (⟨["spec.0.ttl_seconds_after_finished"], []⟩, none) :=
  cd_missing_changed_forceNew "prod,batch-job-7" (some "10") (some "20")
    (fun _ _ => .error .statusNotFound) "prod" "batch-job-7"
    (by rfl) (by rfl) (by decide) (by decide)

/-- C2 counterexample: with the identifier recorded, old and new TTL both
"-1" (equal parsed values) and the remote lookup reporting not found, the
diff rule clears nothing, contrary to the claim that every equal pair has
the spec and metadata sections cleared. -/
theorem cd_missing_same_negative_cex :
    ttlOrZero ((some "-1").getD "") = ttlOrZero ((some "-1").getD "") ∧
    idParts "prod,batch-job-7" = .ok ("prod", "batch-job-7") ∧
    resourceKubernetesJobV1CustomizeDiff "prod,batch-job-7"
      (some "-1") (some "-1") (fun _ _ => .error .statusNotFound) =
      (DiffState.empty, none) := by
  refine ⟨rfl, by rfl, by rfl⟩

/-- C2 (amended): when the resource has a recorded identifier, the remote
lookup fails with not found, the old TTL parses to a non-negative integer,
and the parsed old and new TTL values are equal, the diff rule clears the
spec and metadata sections from the computed diff, performs no ForceNew,
and returns no error. -/
theorem cd_missing_same_suppress (id : String)
    (oldRaw newRaw : Option String)
    (g : String → String → Except Err Job) (ns n : String)
    (hid : idParts id = .ok (ns, n))
    (hnf : g ns n = .error .statusNotFound)
    (h0 : 0 ≤ ttlOrZero (oldRaw.getD ""))
    (heq : ttlOrZero (oldRaw.getD "") = ttlOrZero (newRaw.getD "")) :
    resourceKubernetesJobV1CustomizeDiff id oldRaw newRaw g =
      (⟨[], ["spec", "metadata"]⟩, none) := by
  rw [customizeDiff_notFound_eq id oldRaw newRaw g ns n hid hnf,
    if_pos h0, if_neg (by simpa using heq)]

/-- C2 witness: the amended theorem applied at a concrete input. -/
theorem cd_missing_same_suppress_wit :
    resourceKubernetesJobV1CustomizeDiff "prod,batch-job-7"
      (some "10") (some "10") (fun _ _ => .error .statusNotFound) =
      (⟨[], ["spec", "metadata"]⟩, none) :=
  cd_missing_same_suppress "prod,batch-job-7" (some "10") (some "10")
    (fun _ _ => .error .statusNotFound) "prod" "batch-job-7"
    (by rfl) (by rfl) (by decide) rfl

/-- C8: when the resource has a recorded identifier, the remote lookup
fails with not found, and the old TTL parses to a strictly negative
integer, the diff rule takes no action at all for every new TTL value: no
ForceNew, no cleared sections, no error. -/
theorem cd_missing_negative_noop (id : String)
    (oldRaw newRaw : Option String)
    (g : String → String → Except Err Job) (ns n : String)
    (hid : idParts id = .ok (ns, n))
    (hnf : g ns n = .error .statusNotFound)
    (hneg : ttlOrZero (oldRaw.getD "") < 0) :
    resourceKubernetesJobV1CustomizeDiff id oldRaw newRaw g =
      (DiffState.empty, none) := by
  rw [customizeDiff_notFound_eq id oldRaw newRaw g ns n hid hnf,
    if_neg (not_le.mpr hneg)]

/-- C8 witness: the theorem applied at a concrete input. -/
theorem cd_missing_negative_noop_wit :
    resourceKubernetesJobV1CustomizeDiff "prod,batch-job-7"
      (some "-1") (some "5") (fun _ _ => .error .statusNotFound) =
      (DiffState.empty, none) :=
  cd_missing_negative_noop "prod,batch-job-7" (some "-1") (some "5")
    (fun _ _ => .error .statusNotFound) "prod" "batch-job-7"
    (by rfl) (by rfl) (by decide)

/-- C3: when the resource has a recorded identifier and the remote lookup
succeeds (the job still exists), the diff rule marks
spec.0.ttl_seconds_after_finished as forcing recreation whenever the
parsed old and new TTL values differ, and takes no action when they are
equal; in both cases it returns no error. -/
theorem cd_present_forceNew (id : String) (oldRaw newRaw : Option String)
    (g : String → String → Except Err Job) (ns n : String) (j : Job)
    (hid : idParts id = .ok (ns, n))
    (hok : g ns n = .ok j) :
    (ttlOrZero (oldRaw.getD "") ≠ ttlOrZero (newRaw.getD "") →
      resourceKubernetesJobV1CustomizeDiff id oldRaw newRaw g =
        (⟨["spec.0.ttl_seconds_after_finished"], []⟩, none)) ∧
    (ttlOrZero (oldRaw.getD "") = ttlOrZero (newRaw.getD "") →
      resourceKubernetesJobV1CustomizeDiff id oldRaw newRaw g =
        (DiffState.empty, none)) := by
  constructor
  · intro hne
    rw [customizeDiff_found_eq id oldRaw newRaw g ns n j hid hok, if_pos hne]
  · intro heq
    rw [customizeDiff_found_eq id oldRaw newRaw g ns n j hid hok,
      if_neg (by simpa using heq)]

/-- C3 witness: the theorem applied at a concrete input. -/
theorem cd_present_forceNew_wit :
    resourceKubernetesJobV1CustomizeDiff "prod,batch-job-7"
      (some "10") (some "20") (fun _ _ => .ok ⟨[]⟩) =
      (⟨["spec.0.ttl_seconds_after_finished"], []⟩, none) :=
  (cd_present_forceNew "prod,batch-job-7" (some "10") (some "20")
    (fun _ _ => .ok ⟨[]⟩) "prod" "batch-job-7" ⟨[]⟩
    (by rfl) (by rfl)).1 (by decide)

/-- The condition scan of the source agrees with the first-true-terminal
characterization: the scan succeeds exactly when the first true Complete or
Failed condition in list order is Complete, fails non-retryably when it is
Failed, and is retryable when there is none. -/
theorem scanJobConditions_spec (ns n : String) (cs : List JobCondition) :
    (firstTrueTerminal cs = some ConditionType.complete →
      scanJobConditions ns n cs = none) ∧
    (firstTrueTerminal cs = some ConditionType.failed →
      scanJobConditions ns n cs =
        some (.nonRetryable (.nonStatus
          ("job: " ++ ns ++ "/" ++ n ++ " is in failed state")))) ∧
    (firstTrueTerminal cs = none →
      scanJobConditions ns n cs =
        some (.retryable (.nonStatus
          ("job: " ++ ns ++ "/" ++ n ++ " is not in complete state")))) := by
  induction cs with
  | nil =>
    refine ⟨?_, ?_, ?_⟩ <;> intro h
    · exact absurd h (by simp [firstTrueTerminal])
    · exact absurd h (by simp [firstTrueTerminal])
    · rfl
  | cons c rest ih =>
    obtain ⟨t, st⟩ := c
    obtain ⟨ih1, ih2, ih3⟩ := ih
    cases st <;> cases t <;>
      simp_all [firstTrueTerminal, scanJobConditions]

/-- C4: one attempt of the completion poller on a fetched job examines only
conditions whose status flag is true, in list order: when the first true
Complete-or-Failed condition is Complete the attempt terminates
successfully; when it is Failed the attempt yields a non-retryable error
identifying the job as failed; when no true Complete or Failed condition
exists the attempt is retryable with a not-in-complete-state error. -/
theorem poller_attempt_conditions (ns n : String) (job : Job) :
    (firstTrueTerminal job.conditions = some ConditionType.complete →
      retryUntilJobV1IsFinished ns n (.ok job) = none) ∧
    (firstTrueTerminal job.conditions = some ConditionType.failed →
      retryUntilJobV1IsFinished ns n (.ok job) =
        some (.nonRetryable (.nonStatus
          ("job: " ++ ns ++ "/" ++ n ++ " is in failed state")))) ∧
    (firstTrueTerminal job.conditions = none →
      retryUntilJobV1IsFinished ns n (.ok job) =
        some (.retryable (.nonStatus
          ("job: " ++ ns ++ "/" ++ n ++ " is not in complete state")))) :=
  scanJobConditions_spec ns n job.conditions

/-- C4 witness: the theorem applied to a job whose condition list holds a
false Failed condition, a true non-terminal condition, and then a true
Complete condition; the attempt succeeds. -/
theorem poller_attempt_conditions_wit :
    retryUntilJobV1IsFinished "prod" "batch-job-7"
      (.ok ⟨[⟨.failed, .condFalse⟩, ⟨.otherCond "Suspended", .condTrue⟩,
        ⟨.complete, .condTrue⟩]⟩) = none :=
  (poller_attempt_conditions "prod" "batch-job-7"
    ⟨[⟨.failed, .condFalse⟩, ⟨.otherCond "Suspended", .condTrue⟩,
      ⟨.complete, .condTrue⟩]⟩).1 (by decide)

/-- C5: for one attempt of the completion poller, a fetch failing with a
NotFound StatusError makes the attempt terminate the poll successfully
with no error, and a fetch failing with any other error makes it terminate
with a non-retryable error carrying that error. -/
theorem poller_attempt_fetch_error (ns n : String) (e : Err) :
    (e = .statusNotFound →
      retryUntilJobV1IsFinished ns n (.error e) = none) ∧
    (e ≠ .statusNotFound →
      retryUntilJobV1IsFinished ns n (.error e) =
        some (.nonRetryable e)) := by
  constructor
  · intro h
    subst h
    rfl
  · intro h
    cases e with
    | statusNotFound => exact absurd rfl h
    | statusOther m => rfl
    | nonStatus m => rfl

/-- C5 witness: the theorem applied to a not-found fetch and to another
fetch failure. -/
theorem poller_attempt_fetch_error_wit :
    retryUntilJobV1IsFinished "prod" "batch-job-7"
      (.error .statusNotFound) = none ∧
    retryUntilJobV1IsFinished "prod" "batch-job-7"
      (.error (.statusOther "Forbidden")) =
      some (.nonRetryable (.statusOther "Forbidden")) :=
  ⟨(poller_attempt_fetch_error "prod" "batch-job-7" .statusNotFound).1 rfl,
    (poller_attempt_fetch_error "prod" "batch-job-7"
      (.statusOther "Forbidden")).2 (by decide)⟩

/-- C6: when the update's initial existence check fails with not found and
the recorded TTL parses to a non-negative integer (absent or unparseable
defaulting to 0), the update returns success as a no-op having issued only
the one existence-check call; when the TTL parses negative it returns the
deleted-job fatal error, again with no further remote call. -/
theorem update_missing_ttl (id : String) (ttlAttr : Option String)
    (g : String → String → Except Err Job) (ns n : String)
    (hid : idParts id = .ok (ns, n))
    (hnf : g ns n = .error .statusNotFound) :
    (0 ≤ ttlOrZero (ttlAttr.getD "") →
      resourceKubernetesJobV1Update id ttlAttr g =
        (.noopSuccess, [.getCall ns n])) ∧
    (ttlOrZero (ttlAttr.getD "") < 0 →
      resourceKubernetesJobV1Update id ttlAttr g =
        (.deletedError, [.getCall ns n])) := by
  constructor
  · intro h
    simp only [resourceKubernetesJobV1Update, hid, hnf, Err.isNotFound,
      if_true, if_pos h]
  · intro h
    simp only [resourceKubernetesJobV1Update, hid, hnf, Err.isNotFound,
      if_true, if_neg (not_le.mpr h)]

/-- C6 witness: the theorem applied with a recorded TTL of 30 (the spec
scenario) and with a recorded TTL of -7. -/
theorem update_missing_ttl_wit :
    resourceKubernetesJobV1Update "prod,batch-job-7" (some "30")
      (fun _ _ => .error .statusNotFound) =
      (.noopSuccess, [.getCall "prod" "batch-job-7"]) ∧
    resourceKubernetesJobV1Update "prod,batch-job-7" (some "-7")
      (fun _ _ => .error .statusNotFound) =
      (.deletedError, [.getCall "prod" "batch-job-7"]) :=
  ⟨(update_missing_ttl "prod,batch-job-7" (some "30")
      (fun _ _ => .error .statusNotFound) "prod" "batch-job-7"
      (by rfl) (by rfl)).1 (by decide),
    (update_missing_ttl "prod,batch-job-7" (some "-7")
      (fun _ _ => .error .statusNotFound) "prod" "batch-job-7"
      (by rfl) (by rfl)).2 (by decide)⟩

/-- C9: the deleted-job fatal error of the update is reachable only when
the stored TTL string parses to a strictly negative integer, and an update
against a missing job with no TTL configured returns success as a no-op. -/
theorem update_deleted_error_only_negative (id : String)
    (ttlAttr : Option String) (g : String → String → Except Err Job)
    (ns n : String) (hid : idParts id = .ok (ns, n)) :
    ((resourceKubernetesJobV1Update id ttlAttr g).1 = .deletedError →
      ttlOrZero (ttlAttr.getD "") < 0) ∧
    (ttlAttr = none → g ns n = .error .statusNotFound →
      resourceKubernetesJobV1Update id ttlAttr g =
        (.noopSuccess, [.getCall ns n])) := by
  constructor
  · intro h
    simp only [resourceKubernetesJobV1Update, hid] at h
    cases hg : g ns n with
    | ok j =>
      simp [hg] at h
    | error e =>
      cases e with
      | statusNotFound =>
        simp only [hg, Err.isNotFound, if_true] at h
        by_cases hle : 0 ≤ ttlOrZero (ttlAttr.getD "")
        · rw [if_pos hle] at h
          exact absurd h (by simp)
        · exact not_le.mp hle
      | statusOther m => simp [hg, Err.isNotFound] at h
      | nonStatus m => simp [hg, Err.isNotFound] at h
  · intro hnone hnf
    subst hnone
    simp only [resourceKubernetesJobV1Update, hid, hnf, Err.isNotFound,
      if_true, Option.getD]
    rfl

/-- C9 witness: the theorem applied with TTL string "-1" and with no TTL
configured. -/
theorem update_deleted_error_only_negative_wit :
    ttlOrZero ((some "-1").getD "") < 0 ∧
    resourceKubernetesJobV1Update "prod,batch-job-7" none
      (fun _ _ => .error .statusNotFound) =
      (.noopSuccess, [.getCall "prod" "batch-job-7"]) :=
  ⟨(update_deleted_error_only_negative "prod,batch-job-7" (some "-1")
      (fun _ _ => .error .statusNotFound) "prod" "batch-job-7" (by rfl)).1
      (by decide),
    (update_deleted_error_only_negative "prod,batch-job-7" none
      (fun _ _ => .error .statusNotFound) "prod" "batch-job-7" (by rfl)).2
      rfl (by rfl)⟩

/-- C7: deleting a job that is absent from the remote store returns success
with no error and leaves the store unchanged, and doing it a second time in
succession returns success again: delete is idempotent on absent
objects. -/
theorem delete_idempotent_absent (fuel : Nat) (id ns n : String)
    (s : RemoteJobStore)
    (hid : idParts id = .ok (ns, n))
    (habs : s.lookup ns n = none) :
    resourceKubernetesJobV1Delete fuel id s = ⟨.success, s, id⟩ ∧
    resourceKubernetesJobV1Delete fuel
        (resourceKubernetesJobV1Delete fuel id s).idAfter
        (resourceKubernetesJobV1Delete fuel id s).store =
      ⟨.success, s, id⟩ := by
  have h1 : resourceKubernetesJobV1Delete fuel id s = ⟨.success, s, id⟩ := by
    simp only [resourceKubernetesJobV1Delete, RemoteJobStore.deleteJob, hid,
      habs, Err.isNotFound, if_true]
  refine ⟨h1, ?_⟩
  rw [h1]
  exact h1

/-- C7 witness: the theorem applied to an empty remote store. -/
theorem delete_idempotent_absent_wit :
    resourceKubernetesJobV1Delete 3 "prod,batch-job-7" ⟨[]⟩ =
      ⟨.success, ⟨[]⟩, "prod,batch-job-7"⟩ ∧
    resourceKubernetesJobV1Delete 3
        (resourceKubernetesJobV1Delete 3 "prod,batch-job-7" ⟨[]⟩).idAfter
        (resourceKubernetesJobV1Delete 3 "prod,batch-job-7" ⟨[]⟩).store =
      ⟨.success, ⟨[]⟩, "prod,batch-job-7"⟩ :=
  delete_idempotent_absent 3 "prod,batch-job-7" "prod" "batch-job-7" ⟨[]⟩
    (by rfl) (by rfl)

/-- C10: the existence check returns (false, no error) exactly when the
remote get fails with a NotFound StatusError; for every other get failure
it returns true together with that error. -/
theorem exists_notFound_characterization (id : String)
    (g : String → String → Except Err Job) (ns n : String)
    (hid : idParts id = .ok (ns, n)) :
    (resourceKubernetesJobV1Exists id g = (false, none) ↔
      g ns n = .error .statusNotFound) ∧
    (∀ e : Err, g ns n = .error e → e ≠ .statusNotFound →
      resourceKubernetesJobV1Exists id g = (true, some e)) := by
  constructor
  · constructor
    · intro h
      cases hg : g ns n with
      | ok j =>
        simp [resourceKubernetesJobV1Exists, hid, hg] at h
      | error e =>
        cases e with
        | statusNotFound => rfl
        | statusOther m =>
          simp [resourceKubernetesJobV1Exists, hid, hg, Err.isNotFound] at h
        | nonStatus m =>
          simp [resourceKubernetesJobV1Exists, hid, hg, Err.isNotFound] at h
    · intro h
      simp only [resourceKubernetesJobV1Exists, hid, h, Err.isNotFound,
        if_true]
  · intro e hg hne
    simp only [resourceKubernetesJobV1Exists, hid, hg]
    rw [if_neg (by simpa [Err.isNotFound_iff] using hne)]

/-- C10 witness: the theorem applied to a not-found get and to a get
failing with another status error. -/
theorem exists_notFound_characterization_wit :
    resourceKubernetesJobV1Exists "prod,batch-job-7"
      (fun _ _ => .error .statusNotFound) = (false, none) ∧
    resourceKubernetesJobV1Exists "prod,batch-job-7"
      (fun _ _ => .error (.statusOther "Unauthorized")) =
      (true, some (.statusOther "Unauthorized")) :=
  ⟨(exists_notFound_characterization "prod,batch-job-7"
      (fun _ _ => .error .statusNotFound) "prod" "batch-job-7"
      (by rfl)).1.mpr rfl,
    (exists_notFound_characterization "prod,batch-job-7"
      (fun _ _ => .error (.statusOther "Unauthorized")) "prod" "batch-job-7"
      (by rfl)).2 (.statusOther "Unauthorized") rfl (by decide)⟩

end TFK8sJob
